import Mathlib

/-!
# Verification of the bluetext backend database layer

This file gives a shallow embedding of the resilient connection-lifecycle
manager and the generic injection-safe CRUD layer of the bluetext backend
scaffold, and proves (or refutes) the properties stated in its
specification.

The embedded code lives in:
* `src/templates/api/src/backend/db/utils.py` — the generic CRUD/query
  layer built on psycopg's `sql` composition objects;
* `src/templates/api/src/backend/db/connection.py` — the lifecycle manager
  (retry loop, health monitor, `_ensure_connected`, `get_connection`,
  `is_connected`, `health_check`);
* `src/bluetext-demo-v0/backend/src/backend/db/connection.py` — the older
  variant of the lifecycle manager (no `_connected` flag, fail-fast
  `get_connection`);
* `src/templates/api/src/backend/routes.py` — the `/health` endpoint.

## Modelling conventions

Statements are modelled at the granularity of psycopg's `sql` module:
a statement's text is a list of fragments, where `Frag.ident` corresponds
to `sql.Identifier` (the central identifier-quoting helper), `Frag.ph` to
`sql.Placeholder` / a literal `%s`, and `Frag.raw` to `sql.SQL` literal
text.  Bound parameters are collected separately, exactly as the Python
code collects its `params` lists.  Python dicts that the code iterates
over are modelled as association lists in iteration order.

The asynchronous polling loops (`_ensure_connected`, `_monitor_connection`)
are modelled as fuel-indexed functions over discrete time; one fuel step of
`ensure_connected_poll` is one `asyncio.sleep(0.1)` poll, and one step of
`monitor_connection_run` is one 30-second iteration of the monitor loop.
A result of `none` means the coroutine is still suspended after that much
fuel.
-/

/-- A database value, as bound into a parameter list.  `Val.null` models
Python `None` (stored as SQL NULL). -/
inductive Val where
  | int (n : Int)
  | str (s : String)
  | null
  deriving DecidableEq, Repr

/-- One fragment of a composed statement, mirroring psycopg's `sql`
composition objects: `raw` is literal SQL text (`sql.SQL`), `ident` is an
identifier routed through the quoting helper (`sql.Identifier`), and `ph`
is a bound-parameter placeholder (`sql.Placeholder` / `%s`). -/
inductive Frag where
  | raw (s : String)
  | ident (s : String)
  | ph
  deriving DecidableEq, Repr

/-- A parameterized statement: composed text plus the ordered bound
parameters, exactly the `(query, params)` pair the Python code hands to
`cur.execute`. -/
structure Stmt where
  frags : List Frag
  params : List Val
  deriving DecidableEq, Repr

/-- Double every embedded double-quote character (helper for
`quoteIdent`). -/
def doubleQuotes : List Char → List Char
  | [] => []
  | c :: cs =>
    if c = '\"' then c :: c :: doubleQuotes cs else c :: doubleQuotes cs

/-- psycopg's identifier quoting (`sql.Identifier.as_string`): wrap in
double quotes, doubling any embedded double quote. -/
def quoteIdent (s : String) : String :=
  "\"" ++ String.mk (doubleQuotes s.data) ++ "\""

/-- Render one fragment to SQL text; identifiers go through `quoteIdent`,
placeholders render as `%s`. -/
def renderFrag : Frag → String
  | .raw s => s
  | .ident s => quoteIdent s
  | .ph => "%s"

/-- The rendered text of a statement. -/
def Stmt.text (st : Stmt) : String :=
  String.join (st.frags.map renderFrag)

/-- Separator-first tail of a joined fragment list (helper for
`joinFrags`). -/
def preFrags (sep : String) : List Frag → List Frag
  | [] => []
  | f :: fs => Frag.raw sep :: f :: preFrags sep fs

/-- `sql.SQL(sep).join(fragments)`: the fragments with a raw separator
between each adjacent pair. -/
def joinFrags (sep : String) : List Frag → List Frag
  | [] => []
  | f :: fs => f :: preFrags sep fs

/-- Separator-first tail of a joined list of fragment lists (helper for
`joinFragLists`). -/
def preFragLists (sep : String) : List (List Frag) → List Frag
  | [] => []
  | l :: ls => Frag.raw sep :: (l ++ preFragLists sep ls)

/-- `sql.SQL(sep).join(parts)` where each part is itself a composed
fragment list. -/
def joinFragLists (sep : String) : List (List Frag) → List Frag
  | [] => []
  | l :: ls => l ++ preFragLists sep ls

/-- The identifiers of a fragment list, in order: exactly the strings that
were routed through the quoting helper. -/
def fragIdents : List Frag → List String
  | [] => []
  | Frag.ident s :: fs => s :: fragIdents fs
  | _ :: fs => fragIdents fs

/-- A Python dict of field names to values, in iteration order. -/
abbrev Dict := List (String × Val)

/-- `create_item` iterates `item.model_dump(exclude_unset=True)` and skips
the auto-increment `id` field. -/
def nonIdFields (fields : Dict) : Dict :=
  fields.filter (fun p => p.1 != "id")

/-- The statement built by `create_item` (db/utils.py):
`INSERT INTO {table} ({columns}) VALUES ({placeholders}) RETURNING *`,
with the table and the non-`id` field names as identifiers and one
placeholder per value. -/
def create_item_stmt (table : String) (fields : Dict) : Stmt :=
  let cols := (nonIdFields fields).map Prod.fst
  { frags := [Frag.raw "INSERT INTO ", Frag.ident table, Frag.raw " ("] ++
      joinFrags ", " (cols.map Frag.ident) ++
      [Frag.raw ") VALUES ("] ++
      joinFrags ", " (List.replicate cols.length Frag.ph) ++
      [Frag.raw ") RETURNING *"],
    params := (nonIdFields fields).map Prod.snd }

/-- The statement built by `get_item` (db/utils.py):
`SELECT * FROM {table} WHERE id = %s`. -/
def get_item_stmt (table : String) (itemId : Int) : Stmt :=
  { frags := [Frag.raw "SELECT * FROM ", Frag.ident table,
      Frag.raw " WHERE id = ", Frag.ph],
    params := [Val.int itemId] }

/-- The `WHERE` clause of `get_items` (db/utils.py): skipped when the
`where` dict is falsy, otherwise `{field} = %s` clauses joined by
`" AND "`. -/
def whereFrags (whereL : Dict) : List Frag :=
  if whereL.isEmpty then []
  else Frag.raw " WHERE " ::
    joinFragLists " AND "
      (whereL.map (fun p => [Frag.ident p.1, Frag.raw " = ", Frag.ph]))

/-- The `ORDER BY` clause of `get_items` (db/utils.py): guarded by
Python's `if order_by:`, which is falsy for `None` and for the empty
string — in both cases no clause is built; otherwise the caller-supplied
column name is identifier-quoted, with no validation against the model's
columns. -/
def orderFrags : Option String → List Frag
  | none => []
  | some c => if c = "" then [] else [Frag.raw " ORDER BY ", Frag.ident c]

/-- The identifiers the `ORDER BY` clause contributes: none for a falsy
(`None` or empty) `order_by`, the supplied column otherwise. -/
def orderByIdents : Option String → List String
  | none => []
  | some c => if c = "" then [] else [c]

/-- The statement built by `get_items` (db/utils.py).  `limit` and
`offset` are always appended to the parameter list, never interpolated. -/
def get_items_stmt (table : String) (lim off : Int) (whereL : Dict)
    (orderBy : Option String) : Stmt :=
  { frags := [Frag.raw "SELECT * FROM ", Frag.ident table] ++
      whereFrags whereL ++ orderFrags orderBy ++
      [Frag.raw " LIMIT ", Frag.ph, Frag.raw " OFFSET ", Frag.ph],
    params := whereL.map Prod.snd ++ [Val.int lim, Val.int off] }

/-- The statement built by `update_item` (db/utils.py):
`UPDATE {table} SET {updates} WHERE id = %s RETURNING *` where the SET
clauses come from the `updates` dict.  There is no guard against an empty
`updates` dict: the SET clause list may be empty. -/
def update_item_stmt (table : String) (itemId : Int) (updates : Dict) : Stmt :=
  { frags := [Frag.raw "UPDATE ", Frag.ident table, Frag.raw " SET "] ++
      joinFragLists ", "
        (updates.map (fun p => [Frag.ident p.1, Frag.raw " = ", Frag.ph])) ++
      [Frag.raw " WHERE id = ", Frag.ph, Frag.raw " RETURNING *"],
    params := updates.map Prod.snd ++ [Val.int itemId] }

/-- The statement built by `delete_item` (db/utils.py):
`DELETE FROM {table} WHERE id = %s RETURNING id`. -/
def delete_item_stmt (table : String) (itemId : Int) : Stmt :=
  { frags := [Frag.raw "DELETE FROM ", Frag.ident table,
      Frag.raw " WHERE id = ", Frag.ph, Frag.raw " RETURNING id"],
    params := [Val.int itemId] }

/-- `bulk_create` (db/utils.py) takes its column list from the first
item's keys, excluding `id`; later rows do not contribute columns. -/
def bulk_cols (items : List Dict) : List String :=
  match items with
  | [] => []
  | d :: _ => (d.map Prod.fst).filter (fun k => k != "id")

/-- `bulk_create`'s `placeholders_row`: `"(%s, ..., %s)"` with `n`
placeholders. -/
def placeholdersRow (n : Nat) : String :=
  "(" ++ String.intercalate ", " (List.replicate n "%s") ++ ")"

/-- `bulk_create`'s `placeholders_all`: one `placeholders_row` per item,
joined by `", "`.  It is built from the column and row counts only — no
identifier and no value ever reaches this string. -/
def placeholdersAll (n rows : Nat) : String :=
  String.intercalate ", " (List.replicate rows (placeholdersRow n))

/-- `bulk_create`'s flattened parameter list: row-major over the derived
columns, `item.get(col)` yielding `None` (`Val.null`) for a key a later
row is missing. -/
def dictGet (d : Dict) (k : String) : Val :=
  match d.find? (fun p => p.1 == k) with
  | some p => p.2
  | none => Val.null

/-- The flattened values of `bulk_create`: for each item in order, the
derived columns' values in column order. -/
def bulk_params (cols : List String) (items : List Dict) : List Val :=
  (items.map (fun d => cols.map (dictGet d))).flatten

/-- The statement built by `bulk_create` (db/utils.py) for a non-empty
item list. -/
def bulk_stmt (table : String) (items : List Dict) : Stmt :=
  let cols := bulk_cols items
  { frags := [Frag.raw "INSERT INTO ", Frag.ident table, Frag.raw " ("] ++
      joinFrags ", " (cols.map Frag.ident) ++
      [Frag.raw ") VALUES ", Frag.raw (placeholdersAll cols.length items.length),
       Frag.raw " RETURNING *"],
    params := bulk_params (bulk_cols items) items }

/-- `bulk_create`'s early-out: `if not items: return []` happens before a
connection is taken or any statement is built; `none` means no statement
exists. -/
def bulk_create_plan (table : String) (items : List Dict) : Option Stmt :=
  if items.isEmpty then none else some (bulk_stmt table items)

/-! ## Store semantics

A minimal executable semantics for the backing store, used to settle the
claims about `delete_item`, `execute_transaction` and the temporal
behavior of `get_item`.  A table is a list of rows, a row being an `id`
paired with its remaining fields. -/

/-- A stored row: primary key plus remaining fields. -/
abbrev DbRow := Int × Dict

/-- The store-side effect of `delete_item`'s
`DELETE FROM {table} WHERE id = %s RETURNING id` followed by
`cur.fetchone()`: the surviving rows, and `result is not None` — whether
at least one row was returned (deleted). -/
def delete_item_run (tbl : List DbRow) (i : Int) : List DbRow × Bool :=
  (tbl.filter (fun r => r.1 != i), !(tbl.filter (fun r => r.1 == i)).isEmpty)

/-- A statement submitted to `execute_transaction`, abstracting the raw
`(query, params)` strings of the Python API into a mini statement
language: an insert, a delete, and an invalid statement that the store
rejects with an error. -/
inductive TxOp where
  | ins (v : Int)
  | del (v : Int)
  | bad (msg : String)
  deriving DecidableEq, Repr

/-- Store semantics of one statement over the in-transaction state. -/
def runOp (db : List Int) : TxOp → Except String (List Int)
  | .ins v => .ok (db ++ [v])
  | .del v => .ok (db.filter (fun x => x != v))
  | .bad m => .error m

/-- Execute a batch in submission order over one held connection,
threading the in-transaction state; the first failure aborts the rest. -/
def runOps (db : List Int) : List TxOp → Except String (List Int)
  | [] => .ok db
  | op :: ops =>
    match runOp db op with
    | .ok db2 => runOps db2 ops
    | .error e => .error e

/-- `execute_transaction` (db/utils.py): run every `(query, params)` pair
on one connection's cursor; `conn.commit()` only after all succeed; on any
exception `conn.rollback()` (the durable state is unchanged) and re-raise.
The result is the durable state after the call together with the re-raised
error, if any. -/
def execute_transaction (db : List Int) (ops : List TxOp) :
    List Int × Option String :=
  match runOps db ops with
  | .ok db2 => (db2, none)
  | .error e => (db, some e)

/-! ## Lifecycle manager

`connection.py` keeps module-level state `_pool`, `_connected`,
`_last_connection_error`.  The polling primitives are modelled as
fuel-indexed functions over discrete time; `none` means the coroutine is
still suspended when the fuel runs out. -/

/-- `_ensure_connected` (templates connection.py, lines 138–141):
`while not _connected: await asyncio.sleep(0.1)`.  `flag t` is the value
of `_connected` at poll step `t`; the result is the step at which the
loop observed `_connected == True`, or `none` if that has not happened
within `fuel` polls. -/
def ensure_connected_poll (flag : Nat → Bool) : Nat → Nat → Option Nat
  | _, 0 => none
  | t, fuel + 1 =>
    if flag t then some t else ensure_connected_poll flag (t + 1) fuel

/-- `get_connection` (templates connection.py, lines 191–207): await
`_ensure_connected()`; then raise `RuntimeError` if `_pool` is gone,
otherwise hand out a pool connection.  The `Nat` in the `ok` result is
the time at which the connection was handed out. -/
def get_connection_at (flag poolAt : Nat → Bool) (t fuel : Nat) :
    Option (Except String Nat) :=
  match ensure_connected_poll flag t fuel with
  | none => none
  | some t2 =>
    if poolAt t2 then some (.ok t2)
    else some (.error "Database pool not available")

/-- `get_item` issued at time `t` (db/utils.py via `get_connection`):
after the readiness wait, `SELECT * FROM {table} WHERE id = %s` is
executed against the store.  If the backing store is unreachable at the
moment the connection is used (`storeUp t2 = false`), psycopg raises an
`OperationalError`, modelled as `.error "connection failed"`; otherwise
the call completes with `fetchone()`'s result.  The `Nat` in the `ok`
result is the completion time. -/
def get_item_at (tbl : List DbRow) (i : Int) (flag storeUp poolAt : Nat → Bool)
    (t fuel : Nat) : Option (Except String (Nat × Option DbRow)) :=
  match get_connection_at flag poolAt t fuel with
  | none => none
  | some (.error e) => some (.error e)
  | some (.ok t2) =>
    if storeUp t2 then some (.ok (t2, tbl.find? (fun r => r.1 == i)))
    else some (.error "connection failed")

/-- `is_connected` (templates connection.py, lines 209–223): await
`_ensure_connected()` — so this *blocks* while `_connected` is false —
then return `False` if the pool is gone, else probe `SELECT 1` and report
whether it succeeded. -/
def is_connected_at (flag storeUp poolAt : Nat → Bool) (t fuel : Nat) :
    Option Bool :=
  match ensure_connected_poll flag t fuel with
  | none => none
  | some t2 => some (if poolAt t2 then storeUp t2 else false)

/-- The snapshot returned by `health_check` (templates connection.py,
lines 225–234). -/
structure HealthSnapshot where
  connected : Bool
  status : String
  lastError : Option String
  deriving DecidableEq, Repr

/-- `health_check` (templates connection.py): if `_connected` is false the
snapshot is `connecting` with the last connection error; otherwise it is
`healthy`.  It reads module state only and never suspends. -/
def health_check (connected : Bool) (lastError : Option String) :
    HealthSnapshot :=
  if connected then { connected := true, status := "healthy", lastError := none }
  else { connected := false, status := "connecting", lastError := lastError }

/-- The database section of the `/health` endpoint's response
(routes.py, lines 17–41). -/
structure RouteDbHealth where
  status : String
  connected : Option Bool
  deriving DecidableEq, Repr

/-- The `/health` endpoint's database report (routes.py): when
`USE_POSTGRES` is false it reports `disabled` immediately; when true it
*awaits* `is_connected()` and labels the result `healthy`/`unhealthy`.
`none` means the endpoint handler is still suspended inside
`is_connected`. -/
def route_db_health_at (usePostgres : Bool) (flag storeUp poolAt : Nat → Bool)
    (t fuel : Nat) : Option RouteDbHealth :=
  if usePostgres then
    match is_connected_at flag storeUp poolAt t fuel with
    | none => none
    | some b =>
      some { status := if b then "healthy" else "unhealthy", connected := some b }
  else some { status := "disabled", connected := none }

/-- `get_connection` of the demo-v0 variant
(bluetext-demo-v0 connection.py, lines 168–185): no readiness wait; if
`_pool` is `None` it raises immediately, with a message that
distinguishes the feature-disabled case. -/
def demo_get_connection (usePostgres : Bool) (pool : Option Unit) :
    Except String Unit :=
  match pool with
  | some _ => .ok ()
  | none =>
    if usePostgres then .error "Database pool not initialized. Call init_db() first."
    else .error "PostgreSQL is disabled (USE_POSTGRES=False)"

/-- `_monitor_connection` of the templates variant (connection.py, lines
143–167), one 30-second iteration per fuel step.  The loop runs `while
_pool and _connected` (and `_pool` stays truthy throughout, since closing
a pool does not clear the variable).  Iteration `i`: probe; on probe
success continue; on probe failure set `_connected = False`, close the
pool and attempt `create_pool()` once — on success set `_connected = True`
and continue, on failure sleep 10 seconds, after which the loop condition
is false and the loop exits.  `some (j, c)` means the loop exited at
iteration `j` with `_connected = c`; `none` means it is still running
after `fuel` iterations. -/
def monitor_connection_run (probeOk reconnOk : Nat → Bool) :
    Nat → Nat → Option (Nat × Bool)
  | _, 0 => none
  | i, fuel + 1 =>
    if probeOk i then monitor_connection_run probeOk reconnOk (i + 1) fuel
    else if reconnOk i then monitor_connection_run probeOk reconnOk (i + 1) fuel
    else some (i + 1, false)

/-- The `_connected` flag after `n` monitor iterations of the templates
variant.  While the monitor loop is still running every completed
iteration ends with `_connected = True`; once the loop has exited it
exited through the failed-reconnect branch with `_connected = False`, and
no other live task writes the flag again (`_connection_retry_loop`
terminated with `break` when it first connected), so the flag stays false
forever after. -/
def monitor_connected_after (probeOk reconnOk : Nat → Bool) (n : Nat) : Bool :=
  match monitor_connection_run probeOk reconnOk 0 n with
  | none => true
  | some _ => false

/-- `_monitor_connection` of the demo-v0 variant (bluetext-demo-v0
connection.py, lines 123–145): the loop runs `while _pool`, which stays
truthy, so it never exits; after iteration `n` the connection is healthy
iff that iteration's probe succeeded or its reconnection attempt
succeeded. -/
def demo_monitor_healthy_after (probeOk reconnOk : Nat → Bool) : Nat → Bool
  | 0 => true
  | n + 1 => probeOk n || reconnOk n

/-- A probe/reachability trace on which the store is down at iteration 0
only: the probe at iteration 0 fails, and so does a reconnection attempt
made during iteration 0, but the store is reachable again from iteration
1 onward. -/
def downAtZero : Nat → Bool := fun i => i != 0

/-- The `_connected` trace of a process whose lifecycle never reaches the
connected state — in particular, when `USE_POSTGRES` is false `init_db`
returns without spawning `_connection_retry_loop` (templates
connection.py, lines 54–60), so `_connected` remains `False` at every
time. -/
def never_connected_trace : Nat → Bool := fun _ => false

/-- A trace that is constantly true (a pool that exists at all times, or
a store that is always reachable, or a stale `_connected` flag that the
monitor has not yet refreshed). -/
def always_true_trace : Nat → Bool := fun _ => true

/-- A `_connected` trace that first becomes true at time 3: the manager
observes readiness at time 3. -/
def ready_at_three : Nat → Bool := fun t => decide (3 ≤ t)

/-! ## Helper lemmas -/

@[simp] theorem fragIdents_nil : fragIdents [] = [] := rfl

@[simp] theorem fragIdents_cons_raw (s : String) (fs : List Frag) :
    fragIdents (Frag.raw s :: fs) = fragIdents fs := rfl

@[simp] theorem fragIdents_cons_ident (s : String) (fs : List Frag) :
    fragIdents (Frag.ident s :: fs) = s :: fragIdents fs := rfl

@[simp] theorem fragIdents_cons_ph (fs : List Frag) :
    fragIdents (Frag.ph :: fs) = fragIdents fs := rfl

@[simp] theorem fragIdents_append (a b : List Frag) :
    fragIdents (a ++ b) = fragIdents a ++ fragIdents b := by
  induction a with
  | nil => simp
  | cons f fs ih => cases f <;> simp [ih]

theorem fragIdents_preFrags (sep : String) (fs : List Frag) :
    fragIdents (preFrags sep fs) = fragIdents fs := by
  induction fs with
  | nil => rfl
  | cons f fs ih => cases f <;> simp [preFrags, ih]

@[simp] theorem fragIdents_joinFrags (sep : String) (fs : List Frag) :
    fragIdents (joinFrags sep fs) = fragIdents fs := by
  cases fs with
  | nil => rfl
  | cons f fs => cases f <;> simp [joinFrags, fragIdents_preFrags]

theorem fragIdents_preFragLists (sep : String) (ls : List (List Frag)) :
    fragIdents (preFragLists sep ls) = (ls.map fragIdents).flatten := by
  induction ls with
  | nil => rfl
  | cons l ls ih => simp [preFragLists, ih]

@[simp] theorem fragIdents_joinFragLists (sep : String) (ls : List (List Frag)) :
    fragIdents (joinFragLists sep ls) = (ls.map fragIdents).flatten := by
  cases ls with
  | nil => rfl
  | cons l ls => simp [joinFragLists, fragIdents_preFragLists]

@[simp] theorem fragIdents_map_ident (l : List String) :
    fragIdents (l.map Frag.ident) = l := by
  induction l with
  | nil => rfl
  | cons s l ih => simp [ih]

@[simp] theorem fragIdents_replicate_ph (n : Nat) :
    fragIdents (List.replicate n Frag.ph) = [] := by
  induction n with
  | zero => rfl
  | succ n ih => simp [List.replicate, ih]

theorem flatten_map_singleton {α β : Type} (l : List α) (g : α → β) :
    (l.map fun a => [g a]).flatten = l.map g := by
  induction l with
  | nil => rfl
  | cons a l ih => simp [ih]

theorem fragIdents_whereFrags (wh : Dict) :
    fragIdents (whereFrags wh) = wh.map Prod.fst := by
  cases wh with
  | nil => rfl
  | cons p wh =>
    simp [whereFrags, List.map_map, Function.comp]
    exact flatten_map_singleton _ _

theorem fragIdents_orderFrags (ob : Option String) :
    fragIdents (orderFrags ob) = orderByIdents ob := by
  cases ob with
  | none => rfl
  | some c => by_cases h : c = "" <;> simp [orderFrags, orderByIdents, h]

theorem mem_preFrags {sep : String} {f : Frag} :
    ∀ {fs : List Frag}, f ∈ preFrags sep fs → f = Frag.raw sep ∨ f ∈ fs := by
  intro fs
  induction fs with
  | nil => intro h; cases h
  | cons g fs ih =>
    intro h
    simp only [preFrags, List.mem_cons] at h
    rcases h with h | h | h
    · exact Or.inl h
    · exact Or.inr (by simp [h])
    · rcases ih h with h2 | h2
      · exact Or.inl h2
      · exact Or.inr (by simp [h2])

theorem mem_joinFrags {sep : String} {f : Frag} {fs : List Frag} :
    f ∈ joinFrags sep fs → f = Frag.raw sep ∨ f ∈ fs := by
  cases fs with
  | nil => intro h; cases h
  | cons g fs =>
    intro h
    simp only [joinFrags, List.mem_cons] at h
    rcases h with h | h
    · exact Or.inr (by simp [h])
    · rcases mem_preFrags h with h2 | h2
      · exact Or.inl h2
      · exact Or.inr (by simp [h2])

theorem mem_preFragLists {sep : String} {f : Frag} :
    ∀ {ls : List (List Frag)},
      f ∈ preFragLists sep ls → f = Frag.raw sep ∨ ∃ l ∈ ls, f ∈ l := by
  intro ls
  induction ls with
  | nil => intro h; cases h
  | cons l ls ih =>
    intro h
    simp only [preFragLists, List.mem_cons, List.mem_append] at h
    rcases h with h | h | h
    · exact Or.inl h
    · exact Or.inr ⟨l, by simp, h⟩
    · rcases ih h with h2 | ⟨m, hm, hf⟩
      · exact Or.inl h2
      · exact Or.inr ⟨m, by simp [hm], hf⟩

theorem mem_joinFragLists {sep : String} {f : Frag} {ls : List (List Frag)} :
    f ∈ joinFragLists sep ls → f = Frag.raw sep ∨ ∃ l ∈ ls, f ∈ l := by
  cases ls with
  | nil => intro h; cases h
  | cons l ls =>
    intro h
    simp only [joinFragLists, List.mem_append] at h
    rcases h with h | h
    · exact Or.inr ⟨l, by simp, h⟩
    · rcases mem_preFragLists h with h2 | ⟨m, hm, hf⟩
      · exact Or.inl h2
      · exact Or.inr ⟨m, by simp [hm], hf⟩

theorem filter_fst_map_null (p : String → Bool) (fs : Dict) :
    ((fs.map fun q => (q.1, Val.null)).filter fun q => p q.1).map Prod.fst
      = (fs.filter fun q => p q.1).map Prod.fst := by
  induction fs with
  | nil => rfl
  | cons a fs ih =>
    simp only [List.map_cons, List.filter_cons]
    cases h : p a.1 <;> simp [h, ih]

theorem whereFrags_map_null (wh : Dict) :
    whereFrags (wh.map fun p => (p.1, Val.null)) = whereFrags wh := by
  cases wh with
  | nil => rfl
  | cons p wh =>
    simp only [whereFrags, List.map_cons, List.isEmpty_cons, List.map_map]
    rfl

theorem ensure_connected_poll_never (t fuel : Nat) :
    ensure_connected_poll never_connected_trace t fuel = none := by
  induction fuel generalizing t with
  | zero => rfl
  | succ fuel ih => simp [ensure_connected_poll, never_connected_trace, ih]

theorem ensure_connected_poll_blocked (flag : Nat → Bool) :
    ∀ (fuel Δ T : Nat), (∀ s, s < Δ → flag (T + s) = false) → fuel ≤ Δ →
      ensure_connected_poll flag T fuel = none := by
  intro fuel
  induction fuel with
  | zero => intro Δ T _ _; rfl
  | succ fuel ih =>
    intro Δ T h hle
    have h0 : flag T = false := by
      have := h 0 (by omega)
      simpa using this
    have tail : ensure_connected_poll flag (T + 1) fuel = none := by
      refine ih (Δ - 1) (T + 1) (fun s hs => ?_) (by omega)
      have h2 := h (s + 1) (by omega)
      have : T + 1 + s = T + (s + 1) := by omega
      rw [this]
      exact h2
    simp [ensure_connected_poll, h0, tail]

theorem ensure_connected_poll_finds (flag : Nat → Bool) :
    ∀ (Δ T : Nat), (∀ s, s < Δ → flag (T + s) = false) → flag (T + Δ) = true →
      ensure_connected_poll flag T (Δ + 1) = some (T + Δ) := by
  intro Δ
  induction Δ with
  | zero =>
    intro T _ ht
    have h0 : flag T = true := by simpa using ht
    simp [ensure_connected_poll, h0]
  | succ Δ ih =>
    intro T h ht
    have h0 : flag T = false := by
      have := h 0 (by omega)
      simpa using this
    have tail : ensure_connected_poll flag (T + 1) (Δ + 1) = some (T + 1 + Δ) := by
      refine ih (T + 1) (fun s hs => ?_) ?_
      · have h2 := h (s + 1) (by omega)
        have : T + 1 + s = T + (s + 1) := by omega
        rw [this]
        exact h2
      · have : T + 1 + Δ = T + (Δ + 1) := by omega
        rw [this]
        exact ht
    have harith : T + 1 + Δ = T + (Δ + 1) := by omega
    have hstep : ensure_connected_poll flag T (Δ + 1 + 1)
        = if flag T then some T else ensure_connected_poll flag (T + 1) (Δ + 1) := rfl
    rw [hstep, if_neg (by simp [h0]), tail, harith]

theorem runOps_append (xs : List TxOp) :
    ∀ (db : List Int) (ys : List TxOp),
      runOps db (xs ++ ys) = (runOps db xs).bind (fun d => runOps d ys) := by
  induction xs with
  | nil => intro db ys; rfl
  | cons op xs ih =>
    intro db ys
    cases op <;> simp [runOps, runOp, ih, Except.bind]

theorem bulk_params_cons (cols : List String) (d : Dict) (items : List Dict) :
    bulk_params cols (d :: items) = cols.map (dictGet d) ++ bulk_params cols items := by
  simp [bulk_params]

theorem bulk_params_get_aux (cols : List String) :
    ∀ (items : List Dict) (i j : Nat), i < items.length → j < cols.length →
      (bulk_params cols items)[i * cols.length + j]?
        = (items[i]?.bind fun d => (cols[j]?.map fun c => dictGet d c)) := by
  intro items
  induction items with
  | nil => intro i j hi _; exact absurd hi (by simp)
  | cons d items ih =>
    intro i j hi hj
    cases i with
    | zero =>
      rw [bulk_params_cons]
      have hz : 0 * cols.length + j = j := by omega
      rw [hz, List.getElem?_append_left (by simpa using hj)]
      simp [List.getElem?_eq_getElem hj]
    | succ i =>
      rw [bulk_params_cons]
      have hlen : (cols.map (dictGet d)).length = cols.length := by simp
      have hidx : (i + 1) * cols.length + j
          = (cols.map (dictGet d)).length + (i * cols.length + j) := by
        rw [hlen]; ring
      rw [hidx, List.getElem?_append_right (by omega)]
      have hsub : (cols.map (dictGet d)).length + (i * cols.length + j)
          - (cols.map (dictGet d)).length = i * cols.length + j := by omega
      rw [hsub, ih i j (by simpa using hi) hj]
      simp

/-! ## Raw-text vocabulary

`fragOk v f` checks that a fragment is either an identifier, a
placeholder, or literal SQL text drawn from the fixed vocabulary `v`;
`rawsSubset fs v` checks it for a whole statement.  This is how "no
identifier and no value is ever concatenated into the statement text" is
expressed: every raw fragment of a built statement is one of finitely
many fixed SQL keywords or separators. -/

def fragOk (v : List String) : Frag → Bool
  | Frag.raw s => v.contains s
  | _ => true

def rawsSubset (fs : List Frag) (v : List String) : Bool :=
  fs.all (fragOk v)

@[simp] theorem rawsSubset_nil (v : List String) : rawsSubset [] v = true := rfl

@[simp] theorem rawsSubset_cons (f : Frag) (fs : List Frag) (v : List String) :
    rawsSubset (f :: fs) v = (fragOk v f && rawsSubset fs v) := by
  simp [rawsSubset]

@[simp] theorem rawsSubset_append (a b : List Frag) (v : List String) :
    rawsSubset (a ++ b) v = (rawsSubset a v && rawsSubset b v) := by
  simp [rawsSubset]

@[simp] theorem fragOk_raw (v : List String) (s : String) :
    fragOk v (Frag.raw s) = v.contains s := rfl

@[simp] theorem fragOk_ident (v : List String) (s : String) :
    fragOk v (Frag.ident s) = true := rfl

@[simp] theorem fragOk_ph (v : List String) : fragOk v Frag.ph = true := rfl

theorem rawsSubset_map_ident (l : List String) (v : List String) :
    rawsSubset (l.map Frag.ident) v = true := by
  induction l with
  | nil => rfl
  | cons s l ih => simp [ih]

theorem rawsSubset_replicate_ph (n : Nat) (v : List String) :
    rawsSubset (List.replicate n Frag.ph) v = true := by
  induction n with
  | zero => rfl
  | succ n ih => simp [List.replicate, ih]

theorem rawsSubset_map_ident_comp {α : Type} (l : List α) (g : α → String)
    (v : List String) :
    rawsSubset (l.map fun a => Frag.ident (g a)) v = true := by
  induction l with
  | nil => rfl
  | cons a l ih => simp [ih]

theorem fragIdents_map_ident_comp {α : Type} (l : List α) (g : α → String) :
    fragIdents (l.map fun a => Frag.ident (g a)) = l.map g := by
  induction l with
  | nil => rfl
  | cons a l ih => simp [ih]

theorem fragIdents_map_ident_fcomp {α : Type} (l : List α) (g : α → String) :
    fragIdents (l.map (Frag.ident ∘ g)) = l.map g :=
  fragIdents_map_ident_comp l g

theorem rawsSubset_map_ident_fcomp {α : Type} (l : List α) (g : α → String)
    (v : List String) :
    rawsSubset (l.map (Frag.ident ∘ g)) v = true :=
  rawsSubset_map_ident_comp l g v

theorem rawsSubset_preFrags (sep : String) (v : List String) (fs : List Frag)
    (hsep : sep ∈ v) :
    rawsSubset (preFrags sep fs) v = rawsSubset fs v := by
  induction fs with
  | nil => rfl
  | cons f fs ih => simp [preFrags, hsep, ih]

theorem rawsSubset_joinFrags (sep : String) (v : List String) (fs : List Frag)
    (hsep : sep ∈ v) :
    rawsSubset (joinFrags sep fs) v = rawsSubset fs v := by
  cases fs with
  | nil => rfl
  | cons f fs => simp [joinFrags, rawsSubset_preFrags sep v fs hsep]

theorem rawsSubset_preFragLists (sep : String) (v : List String)
    (ls : List (List Frag)) (hsep : sep ∈ v) :
    rawsSubset (preFragLists sep ls) v = rawsSubset ls.flatten v := by
  induction ls with
  | nil => rfl
  | cons l ls ih => simp [preFragLists, hsep, ih]

theorem rawsSubset_joinFragLists (sep : String) (v : List String)
    (ls : List (List Frag)) (hsep : sep ∈ v) :
    rawsSubset (joinFragLists sep ls) v = rawsSubset ls.flatten v := by
  cases ls with
  | nil => rfl
  | cons l ls => simp [joinFragLists, rawsSubset_preFragLists sep v ls hsep]

/-- The fixed raw vocabulary of `create_item`'s statement. -/
def createRawVocab : List String :=
  ["INSERT INTO ", " (", ", ", ") VALUES (", ") RETURNING *"]

/-- The fixed raw vocabulary of `get_items`'s statement. -/
def selectRawVocab : List String :=
  ["SELECT * FROM ", " WHERE ", " AND ", " = ", " ORDER BY ", " LIMIT ",
   " OFFSET "]

/-- The fixed raw vocabulary of `update_item`'s statement. -/
def updateRawVocab : List String :=
  ["UPDATE ", " SET ", ", ", " = ", " WHERE id = ", " RETURNING *"]

/-- The raw vocabulary of `bulk_create`'s statement: fixed keywords plus
the placeholder grid, which is a function of the column and row counts
only. -/
def bulkRawVocab (nCols nRows : Nat) : List String :=
  ["INSERT INTO ", " (", ", ", ") VALUES ", " RETURNING *",
   placeholdersAll nCols nRows]

theorem create_item_idents (t : String) (fs : Dict) :
    fragIdents (create_item_stmt t fs).frags
      = t :: (nonIdFields fs).map Prod.fst := by
  simp [create_item_stmt, fragIdents_map_ident_comp, fragIdents_map_ident_fcomp]

theorem create_item_null_indep (t : String) (fs : Dict) :
    (create_item_stmt t (fs.map fun p => (p.1, Val.null))).frags
      = (create_item_stmt t fs).frags := by
  have hcols : ((nonIdFields (fs.map fun p => (p.1, Val.null))).map Prod.fst)
      = (nonIdFields fs).map Prod.fst :=
    filter_fst_map_null (fun s => s != "id") fs
  simp [create_item_stmt, hcols]

theorem create_item_raws (t : String) (fs : Dict) :
    rawsSubset (create_item_stmt t fs).frags createRawVocab = true := by
  simp [create_item_stmt,
    rawsSubset_joinFrags ", " createRawVocab _ (by decide),
    rawsSubset_map_ident, rawsSubset_map_ident_comp, rawsSubset_map_ident_fcomp,
    rawsSubset_replicate_ph]
  all_goals decide

theorem get_items_idents (t : String) (l o : Int) (wh : Dict)
    (ob : Option String) :
    fragIdents (get_items_stmt t l o wh ob).frags
      = t :: (wh.map Prod.fst ++ orderByIdents ob) := by
  simp [get_items_stmt, fragIdents_whereFrags, fragIdents_orderFrags]

theorem get_items_null_indep (t : String) (l o : Int) (wh : Dict)
    (ob : Option String) :
    (get_items_stmt t 0 0 (wh.map fun p => (p.1, Val.null)) ob).frags
      = (get_items_stmt t l o wh ob).frags := by
  simp [get_items_stmt, whereFrags_map_null]

theorem rawsSubset_where_parts (v : List String)
    (h : " = " ∈ v) (wh : Dict) :
    rawsSubset
      ((wh.map fun p => [Frag.ident p.1, Frag.raw " = ", Frag.ph]).flatten)
      v = true := by
  induction wh with
  | nil => rfl
  | cons p wh ih => simp [h, ih]

theorem rawsSubset_whereFrags (wh : Dict) :
    rawsSubset (whereFrags wh) selectRawVocab = true := by
  cases wh with
  | nil => rfl
  | cons p wh =>
    simp [whereFrags,
      rawsSubset_joinFragLists " AND " selectRawVocab _ (by decide),
      rawsSubset_where_parts selectRawVocab (by decide)]
    all_goals decide

theorem get_items_raws (t : String) (l o : Int) (wh : Dict)
    (ob : Option String) :
    rawsSubset (get_items_stmt t l o wh ob).frags selectRawVocab = true := by
  cases ob with
  | none =>
    simp [get_items_stmt, orderFrags, rawsSubset_whereFrags]
    all_goals decide
  | some c =>
    by_cases h : c = "" <;>
      simp [get_items_stmt, orderFrags, rawsSubset_whereFrags, h] <;>
      all_goals decide

theorem update_item_idents (t : String) (i : Int) (ups : Dict) :
    fragIdents (update_item_stmt t i ups).frags = t :: ups.map Prod.fst := by
  simp [update_item_stmt, List.map_map, Function.comp]
  exact flatten_map_singleton _ _

theorem update_item_null_indep (t : String) (i : Int) (ups : Dict) :
    (update_item_stmt t 0 (ups.map fun p => (p.1, Val.null))).frags
      = (update_item_stmt t i ups).frags := by
  simp only [update_item_stmt, List.map_map]
  rfl

theorem update_item_raws (t : String) (i : Int) (ups : Dict) :
    rawsSubset (update_item_stmt t i ups).frags updateRawVocab = true := by
  simp [update_item_stmt,
    rawsSubset_joinFragLists ", " updateRawVocab _ (by decide),
    rawsSubset_where_parts updateRawVocab (by decide)]
  all_goals decide

theorem bulk_cols_map_null (items : List Dict) :
    bulk_cols (items.map (List.map fun p => (p.1, Val.null))) = bulk_cols items := by
  cases items with
  | nil => rfl
  | cons d items =>
    simp only [List.map_cons, bulk_cols, List.map_map]
    rfl

theorem bulk_idents (t : String) (items : List Dict) :
    fragIdents (bulk_stmt t items).frags = t :: bulk_cols items := by
  simp [bulk_stmt]

theorem bulk_null_indep (t : String) (items : List Dict) :
    (bulk_stmt t (items.map (List.map fun p => (p.1, Val.null)))).frags
      = (bulk_stmt t items).frags := by
  simp [bulk_stmt, bulk_cols_map_null]

theorem bulk_raws (t : String) (items : List Dict) :
    rawsSubset (bulk_stmt t items).frags
      (bulkRawVocab (bulk_cols items).length items.length) = true := by
  have hsep : ", " ∈ bulkRawVocab (bulk_cols items).length items.length := by
    simp [bulkRawVocab]
  have hph : placeholdersAll (bulk_cols items).length items.length
      ∈ bulkRawVocab (bulk_cols items).length items.length := by
    simp [bulkRawVocab]
  simp [bulk_stmt,
    rawsSubset_joinFrags ", " (bulkRawVocab (bulk_cols items).length items.length) _ hsep,
    rawsSubset_map_ident, hph]
  all_goals simp [bulkRawVocab]

/-! ## Claims about the query builder and store operations -/

/-- C1: for every table name, column name, caller-supplied filter key and
caller-supplied update key, the statements built by `create_item`,
`get_item`, `get_items`, `update_item`, `delete_item` and `bulk_create`
contain those identifiers only through the identifier-quoting constructor
(`Frag.ident`, psycopg's `sql.Identifier`): the identifier list of each
built statement is exactly the supplied identifiers, every raw text
fragment is drawn from a fixed SQL vocabulary, the fragment text is
unchanged when every value is replaced by NULL (so no value reaches the
text), and every value — limit and offset included — appears exactly in
the bound-parameter list. -/
theorem sql_builders_quote_identifiers_and_bind_values :
    (∀ (t : String) (fs : Dict),
      (create_item_stmt t fs).params = (nonIdFields fs).map Prod.snd ∧
      fragIdents (create_item_stmt t fs).frags
        = t :: (nonIdFields fs).map Prod.fst ∧
      (create_item_stmt t (fs.map fun p => (p.1, Val.null))).frags
        = (create_item_stmt t fs).frags ∧
      rawsSubset (create_item_stmt t fs).frags createRawVocab = true) ∧
    (∀ (t : String) (i : Int),
      get_item_stmt t i
        = { frags := [Frag.raw "SELECT * FROM ", Frag.ident t,
              Frag.raw " WHERE id = ", Frag.ph],
            params := [Val.int i] }) ∧
    (∀ (t : String) (l o : Int) (wh : Dict) (ob : Option String),
      (get_items_stmt t l o wh ob).params
        = wh.map Prod.snd ++ [Val.int l, Val.int o] ∧
      fragIdents (get_items_stmt t l o wh ob).frags
        = t :: (wh.map Prod.fst ++ orderByIdents ob) ∧
      (get_items_stmt t 0 0 (wh.map fun p => (p.1, Val.null)) ob).frags
        = (get_items_stmt t l o wh ob).frags ∧
      rawsSubset (get_items_stmt t l o wh ob).frags selectRawVocab = true) ∧
    (∀ (t : String) (i : Int) (ups : Dict),
      (update_item_stmt t i ups).params = ups.map Prod.snd ++ [Val.int i] ∧
      fragIdents (update_item_stmt t i ups).frags = t :: ups.map Prod.fst ∧
      (update_item_stmt t 0 (ups.map fun p => (p.1, Val.null))).frags
        = (update_item_stmt t i ups).frags ∧
      rawsSubset (update_item_stmt t i ups).frags updateRawVocab = true) ∧
    (∀ (t : String) (i : Int),
      delete_item_stmt t i
        = { frags := [Frag.raw "DELETE FROM ", Frag.ident t,
              Frag.raw " WHERE id = ", Frag.ph, Frag.raw " RETURNING id"],
            params := [Val.int i] }) ∧
    (∀ (t : String) (items : List Dict),
      (bulk_stmt t items).params = bulk_params (bulk_cols items) items ∧
      fragIdents (bulk_stmt t items).frags = t :: bulk_cols items ∧
      (bulk_stmt t (items.map (List.map fun p => (p.1, Val.null)))).frags
        = (bulk_stmt t items).frags ∧
      rawsSubset (bulk_stmt t items).frags
        (bulkRawVocab (bulk_cols items).length items.length) = true) := by
  refine ⟨fun t fs => ⟨rfl, create_item_idents t fs, create_item_null_indep t fs,
      create_item_raws t fs⟩,
    fun t i => rfl,
    fun t l o wh ob => ⟨rfl, get_items_idents t l o wh ob,
      get_items_null_indep t l o wh ob, get_items_raws t l o wh ob⟩,
    fun t i ups => ⟨rfl, update_item_idents t i ups,
      update_item_null_indep t i ups, update_item_raws t i ups⟩,
    fun t i => rfl,
    fun t items => ⟨rfl, bulk_idents t items, bulk_null_indep t items,
      bulk_raws t items⟩⟩

/-- C6: `execute_transaction` executes its `(query, params)` batch in
submission order over one held connection, commits only when every
statement succeeds, and on any failure leaves the durable state unchanged
(full rollback — an insert preceding an invalid statement does not
persist) and re-raises the error. -/
theorem execute_transaction_atomic :
    (∀ (db : List Int) (xs ys : List TxOp),
      runOps db (xs ++ ys) = (runOps db xs).bind (fun d => runOps d ys)) ∧
    (∀ (db : List Int) (ops : List TxOp) (d : List Int),
      runOps db ops = .ok d → execute_transaction db ops = (d, none)) ∧
    (∀ (db : List Int) (ops : List TxOp) (e : String),
      runOps db ops = .error e → execute_transaction db ops = (db, some e)) ∧
    execute_transaction [] [TxOp.ins 42, TxOp.bad "invalid statement"]
      = ([], some "invalid statement") := by
  refine ⟨fun db xs ys => runOps_append xs db ys,
    fun db ops d h => by simp [execute_transaction, h],
    fun db ops e h => by simp [execute_transaction, h],
    rfl⟩

/-- C6 witness: a concrete batch whose second statement is invalid — the
preceding insert of 42 is rolled back (the durable state keeps only the
pre-existing row 7) and the error is re-raised. -/
theorem execute_transaction_atomic_witness :
    execute_transaction [7] [TxOp.ins 42, TxOp.bad "syntax error"]
      = ([7], some "syntax error") :=
  execute_transaction_atomic.2.2.1 [7] [TxOp.ins 42, TxOp.bad "syntax error"]
    "syntax error" rfl

/-- C7: `update_item` called with an empty `updates` dict does not return
a no-op marker — it builds (and sends) a statement with an empty SET
clause, `UPDATE "user" SET  WHERE id = %s RETURNING *`, which is a SQL
syntax error at the store. -/
theorem update_item_empty_updates_builds_empty_set_clause :
    update_item_stmt "user" 1 []
      = { frags := [Frag.raw "UPDATE ", Frag.ident "user", Frag.raw " SET ",
            Frag.raw " WHERE id = ", Frag.ph, Frag.raw " RETURNING *"],
          params := [Val.int 1] } ∧
    (update_item_stmt "user" 1 []).text
      = "UPDATE \"user\" SET  WHERE id = %s RETURNING *" := by
  exact ⟨rfl, by decide⟩

/-- The declared columns of the sample `User` entity
(db/models.py). -/
def userColumns : List String :=
  ["id", "email", "name", "bio", "is_active", "created_at", "updated_at"]

/-- C8 counterexample: `get_items` over the `user` table with an
`order_by` that is not a declared column of the entity is not rejected —
a statement is built, with the unknown column identifier-quoted in its
ORDER BY clause. -/
theorem get_items_orderby_unvalidated_cex :
    "nonexistent_column" ∉ userColumns ∧
    (get_items_stmt "user" 100 0 [] (some "nonexistent_column")).frags
      = [Frag.raw "SELECT * FROM ", Frag.ident "user", Frag.raw " ORDER BY ",
         Frag.ident "nonexistent_column", Frag.raw " LIMIT ", Frag.ph,
         Frag.raw " OFFSET ", Frag.ph] ∧
    (get_items_stmt "user" 100 0 [] (some "nonexistent_column")).params
      = [Val.int 100, Val.int 0] := by
  exact ⟨by decide, rfl, rfl⟩

/-- C8 (amended): `get_items` never validates `order_by` against the
entity's column set: every non-empty order-by value — the only values
that pass the source's `if order_by:` truthiness guard — is built into
the statement identifier-quoted in the ORDER BY clause, declared or not
(rejection of unknown columns is deferred to the database); an empty
order-by is falsy and the clause is skipped, exactly as with `None`. -/
theorem get_items_orderby_always_quoted_never_validated :
    (∀ (t : String) (l o : Int) (wh : Dict) (c : String), c ≠ "" →
      (get_items_stmt t l o wh (some c)).frags
        = [Frag.raw "SELECT * FROM ", Frag.ident t] ++ whereFrags wh ++
          [Frag.raw " ORDER BY ", Frag.ident c, Frag.raw " LIMIT ", Frag.ph,
           Frag.raw " OFFSET ", Frag.ph] ∧
      fragIdents (get_items_stmt t l o wh (some c)).frags
        = t :: (wh.map Prod.fst ++ [c])) ∧
    (∀ (t : String) (l o : Int) (wh : Dict),
      (get_items_stmt t l o wh (some "")).frags
        = (get_items_stmt t l o wh none).frags) := by
  constructor
  · intro t l o wh c hc
    refine ⟨?_, ?_⟩
    · simp [get_items_stmt, orderFrags, hc]
    · simp [get_items_idents, orderByIdents, hc]
  · intro t l o wh
    simp [get_items_stmt, orderFrags]

/-- C8 witness: the theorem applied at a concrete non-empty order-by
column (`bio`, a declared column) over a filtered `user` query. -/
theorem get_items_orderby_always_quoted_never_validated_witness :
    (get_items_stmt "user" 5 0 [("name", Val.str "A")] (some "bio")).frags
      = [Frag.raw "SELECT * FROM ", Frag.ident "user"] ++
        whereFrags [("name", Val.str "A")] ++
        [Frag.raw " ORDER BY ", Frag.ident "bio", Frag.raw " LIMIT ", Frag.ph,
         Frag.raw " OFFSET ", Frag.ph] ∧
    fragIdents (get_items_stmt "user" 5 0 [("name", Val.str "A")]
        (some "bio")).frags
      = "user" :: (["name"] ++ ["bio"]) :=
  get_items_orderby_always_quoted_never_validated.1 "user" 5 0
    [("name", Val.str "A")] "bio" (by decide)

/-- C9: `delete_item` returns true iff a row with the given id existed at
the time of the call (and was deleted); a nonexistent id yields false
rather than an error, and a second delete of an already-deleted id also
yields false. -/
theorem delete_item_true_iff_row_existed :
    ∀ (tbl : List DbRow) (i : Int),
      ((delete_item_run tbl i).2 = true ↔ ∃ r ∈ tbl, r.1 = i) ∧
      (delete_item_run (delete_item_run tbl i).1 i).2 = false := by
  intro tbl i
  constructor
  · simp [delete_item_run, List.isEmpty_iff, List.filter_eq_nil_iff]
  · simp [delete_item_run, List.filter_filter]

/-- C10: `bulk_create` derives the inserted column set from the first
row's keys excluding `id` (later rows contribute no columns and a key
present only in a later row is ignored); the flattened parameter list is
row-major over exactly those columns, a missing key contributing NULL in
its position; and an empty rows list returns an empty result with no
statement built. -/
theorem bulk_create_first_row_columns_row_major :
    (∀ t, bulk_create_plan t [] = none) ∧
    (∀ (d : Dict) (rest rest2 : List Dict),
      bulk_cols (d :: rest) = bulk_cols (d :: rest2)) ∧
    (∀ (d : Dict) (rest : List Dict) (k : String),
      k ∈ bulk_cols (d :: rest) ↔ (k ∈ d.map Prod.fst ∧ k ≠ "id")) ∧
    (∀ (d : Dict) (k : String), k ∉ d.map Prod.fst → dictGet d k = Val.null) ∧
    (∀ (cols : List String) (items : List Dict) (i j : Nat),
      i < items.length → j < cols.length →
      (bulk_params cols items)[i * cols.length + j]?
        = (items[i]?.bind fun d => cols[j]?.map fun c => dictGet d c)) := by
  refine ⟨fun t => rfl, fun d r r2 => rfl, ?_, ?_,
    fun cols items i j hi hj => bulk_params_get_aux cols items i j hi hj⟩
  · intro d rest k
    simp [bulk_cols, List.mem_filter, bne_iff_ne]
  · intro d k hk
    have hnone : d.find? (fun p => p.1 == k) = none := by
      rw [List.find?_eq_none]
      intro x hx
      simp only [beq_iff_eq]
      intro hxk
      exact hk (List.mem_map.mpr ⟨x, hx, hxk⟩)
    simp [dictGet, hnone]

/-- C10 witness: two rows where the second lacks the first row's key
`name` (and has an extra key the column derivation ignores): the
parameter at row-major position (1, 0) is NULL. -/
theorem bulk_create_first_row_columns_row_major_witness :
    dictGet [("extra", Val.str "B")] "name" = Val.null ∧
    (bulk_params ["name"]
      [[("name", Val.str "Alice")], [("extra", Val.str "B")]])[1]?
      = some Val.null := by
  constructor
  · exact bulk_create_first_row_columns_row_major.2.2.2.1
      [("extra", Val.str "B")] "name" (by decide)
  · have h := bulk_create_first_row_columns_row_major.2.2.2.2 ["name"]
      [[("name", Val.str "Alice")], [("extra", Val.str "B")]] 1 0
      (by decide) (by decide)
    exact h.trans rfl

/-! ## Claims about the connection lifecycle -/

/-- C2 (the code evaluated at the failing trace): with the store down at
monitor iteration 0 only — the probe fails and the immediate single
reconnection attempt fails, but the store is reachable again from
iteration 1 onward — the templates `_monitor_connection` loop exits at
once with `_connected = False`, and the flag is false at every later
iteration: the Connecting retry loop is not restarted and the system
never returns to Connected.  Under the same trace the demo-v0 monitor
(whose loop condition is `while _pool`) is healthy again from iteration 2
onward. -/
theorem monitor_probe_failure_leaves_permanent_disconnect :
    downAtZero 0 = false ∧
    (∀ i, downAtZero (i + 1) = true) ∧
    (∀ n, monitor_connection_run downAtZero downAtZero 0 (n + 1)
      = some (1, false)) ∧
    (∀ n, monitor_connected_after downAtZero downAtZero (n + 1) = false) ∧
    (∀ n, demo_monitor_healthy_after downAtZero downAtZero (n + 2) = true) := by
  refine ⟨rfl, fun i => by simp [downAtZero], fun n => ?_, fun n => ?_,
    fun n => by simp [demo_monitor_healthy_after, downAtZero]⟩
  · simp [monitor_connection_run, downAtZero]
  · simp [monitor_connected_after, monitor_connection_run, downAtZero]

/-- C3 counterexample: a `get_item` call issued while the backing store
is unreachable, but before the 30-second periodic probe has observed the
outage (`_connected` still true), does not suspend: `_ensure_connected`
returns immediately, a pool connection is handed out, and executing the
statement raises a connectivity error to the caller. -/
theorem get_item_during_detection_window_raises :
    never_connected_trace 0 = false ∧
    get_item_at [] 1 always_true_trace never_connected_trace always_true_trace 0 1
      = some (.error "connection failed") :=
  ⟨rfl, rfl⟩

/-- C3 (amended): every data operation reaches the pool only through
`get_connection`, which first awaits `_ensure_connected`; a `get_item`
call issued at `T` while the manager has *observed* the outage
(`_connected` false for the `Δ` steps from `T`) stays suspended for as
long as the flag is down and, provided the pool exists and the store is
reachable when the flag comes back at `T + Δ`, completes successfully at
exactly `T + Δ` — no earlier than the reconnection — with no connectivity
error. -/
theorem get_item_waits_for_observed_readiness
    (tbl : List DbRow) (i : Int) (flag storeUp poolAt : Nat → Bool) (T Δ : Nat)
    (hOut : ∀ s, s < Δ → flag (T + s) = false)
    (hRe : flag (T + Δ) = true)
    (hPool : poolAt (T + Δ) = true)
    (hStore : storeUp (T + Δ) = true) :
    (∀ fuel, fuel ≤ Δ → get_item_at tbl i flag storeUp poolAt T fuel = none) ∧
    get_item_at tbl i flag storeUp poolAt T (Δ + 1)
      = some (.ok (T + Δ, tbl.find? (fun r => r.1 == i))) := by
  constructor
  · intro fuel hf
    have h := ensure_connected_poll_blocked flag fuel Δ T hOut hf
    simp [get_item_at, get_connection_at, h]
  · have h := ensure_connected_poll_finds flag Δ T hOut hRe
    simp [get_item_at, get_connection_at, h, hPool, hStore]

/-- C3 witness: readiness is observed at time 3; a call issued at time 1,
two steps into the observed outage, completes at time 3 with the row and
no error. -/
theorem get_item_waits_for_observed_readiness_witness :
    get_item_at [(1, [("name", Val.str "A")])] 1 ready_at_three
        always_true_trace always_true_trace 1 3
      = some (.ok (3, some (1, [("name", Val.str "A")]))) := by
  have h := (get_item_waits_for_observed_readiness
    [(1, [("name", Val.str "A")])] 1 ready_at_three always_true_trace
    always_true_trace 1 2
    (by
      intro s hs
      simp only [ready_at_three, decide_eq_false_iff_not]
      omega)
    (by decide) (by decide) (by decide)).2
  exact h.trans rfl

theorem get_connection_at_never_aux (t fuel : Nat) :
    get_connection_at never_connected_trace never_connected_trace t fuel
      = none := by
  simp [get_connection_at, ensure_connected_poll_never]

theorem route_db_health_never_aux (storeUp poolAt : Nat → Bool) (t fuel : Nat) :
    route_db_health_at true never_connected_trace storeUp poolAt t fuel
      = none := by
  simp [route_db_health_at, is_connected_at, ensure_connected_poll_never]

/-- C4 counterexample: in the templates variant, `USE_POSTGRES = False`
means `init_db` returns without starting the retry loop, so `_connected`
is false forever; a `get_connection` call then does not return a "feature
disabled" error — after one million 0.1-second polls it is still
suspended. -/
theorem templates_get_connection_disabled_still_suspended :
    get_connection_at never_connected_trace never_connected_trace 0 1000000
      = none :=
  get_connection_at_never_aux 0 1000000

/-- C4 (amended): with the feature flag off, the demo-v0 `get_connection`
fails fast with the explicit "PostgreSQL is disabled" error, but the
templates `get_connection` — whose only guard is `_ensure_connected` —
suspends indefinitely: for every amount of fuel it has neither produced a
connection nor raised. -/
theorem get_connection_disabled_demo_errors_templates_hangs :
    demo_get_connection false none
      = .error "PostgreSQL is disabled (USE_POSTGRES=False)" ∧
    (∀ fuel t,
      get_connection_at never_connected_trace never_connected_trace t fuel
        = none) :=
  ⟨rfl, fun fuel t => get_connection_at_never_aux t fuel⟩

/-- C5 counterexample: with the feature flag off (so `_connected` is
never true), the module-level `health_check` snapshot reports status
`connecting`, not `disabled`; and in the enabled-but-not-connected state
the `/health` endpoint does not report without blocking — its
`is_connected()` await is still suspended after one million polls. -/
theorem health_surface_cex :
    (health_check false (some "connection refused")).status = "connecting" ∧
    (health_check false (some "connection refused")).status ≠ "disabled" ∧
    route_db_health_at true never_connected_trace never_connected_trace
        never_connected_trace 0 1000000 = none := by
  exact ⟨rfl, by decide,
    route_db_health_never_aux never_connected_trace never_connected_trace 0 1000000⟩

/-- The label the `/health` endpoint attaches to the probed
connectivity result. -/
def routeLabel (b : Bool) : RouteDbHealth :=
  { status := if b then "healthy" else "unhealthy", connected := some b }

/-- C5 (amended): the non-suspending `health_check` snapshot reports only
`connecting` or `healthy` (with `connected` mirroring the flag) — never
`disabled` or `unhealthy`, so the flag-off state is reported as
`connecting`; the route-level endpoint reports `disabled` with zero
suspension when the flag is off and labels the probe result
`healthy`/`unhealthy` when the manager is connected, but suspends for
every amount of fuel whenever the flag is on and `_connected` is
false. -/
theorem health_statuses_and_route_blocking :
    (∀ (c : Bool) (e : Option String),
      ((health_check c e).status = "connecting" ∨
        (health_check c e).status = "healthy") ∧
      (health_check c e).connected = c) ∧
    (∀ (flag storeUp poolAt : Nat → Bool) (t : Nat),
      route_db_health_at false flag storeUp poolAt t 0
        = some { status := "disabled", connected := none }) ∧
    (∀ (storeUp poolAt : Nat → Bool) (t fuel : Nat),
      route_db_health_at true always_true_trace storeUp poolAt t (fuel + 1)
        = some (routeLabel (if poolAt t then storeUp t else false))) ∧
    (∀ (storeUp poolAt : Nat → Bool) (t fuel : Nat),
      route_db_health_at true never_connected_trace storeUp poolAt t fuel
        = none) := by
  refine ⟨fun c e => ?_, fun flag s p t => rfl, fun s p t fuel => ?_,
    fun s p t fuel => route_db_health_never_aux s p t fuel⟩
  · cases c <;> simp [health_check]
  · simp [route_db_health_at, is_connected_at, ensure_connected_poll,
      always_true_trace, routeLabel]
